import Mathlib

/-!
Verification of the bloodwork extraction pipeline
(`src/api.py` and `src/bloodwork_app.py`).

The two files each define a class `BloodworkExtractor` with three methods
(`extract_text_from_pdf`, `extract_bloodwork_results`, `process_lab_report`),
plus an entry surface (`process_pdf` FastAPI endpoint in `api.py`, `main`
Streamlit app in `bloodwork_app.py`).  We embed these shallowly:

* a PDF document is modelled as either unreadable (`fitz.open` raises) or a
  list of pages, each of whose `get_text()` call either returns a string or
  raises;
* Python exceptions become `Except String`;
* the OpenAI client is a parameter `llm : ChatRequest → Except String
  ChatResponse`;
* side effects relevant to the claims (opening/closing the document handle,
  issuing the model call, saving/removing the temporary upload file) are
  recorded in an event trace returned alongside the result;
* `datetime.now().strftime(...)` is a parameter `now : String`.
-/

namespace Bloodwork

/-- Observable side effects of a pipeline run. -/
inductive Event where
  | docOpened
  | docClosed
  | llmCalled
  | tempSaved
  | tempRemoved
deriving DecidableEq, Repr

/-- A PDF document as the extractor observes it: `fitz.open` either raises
(`unreadable`) or yields a sequence of pages; each page's `get_text()`
either raises or returns that page's extractable text (possibly empty). -/
inductive Doc where
  | unreadable (e : String)
  | pages (ps : List (Except String String))
deriving Repr

/-- The loop `for page in doc: text += page.get_text()` with accumulator
`acc`; the first page whose `get_text()` raises aborts the loop with that
exception. -/
def pageLoop : List (Except String String) → String → Except String String
  | [], acc => .ok acc
  | .error e :: _, _ => .error e
  | .ok t :: rest, acc => pageLoop rest (acc ++ t)

/-- `BloodworkExtractor.extract_text_from_pdf` (identical in
`src/api.py` lines 24-30 and `src/bloodwork_app.py` lines 16-23):

    doc = fitz.open(pdf_path)
    text = ""
    for page in doc:
        text += page.get_text()
    doc.close()
    return text

If `fitz.open` raises, no handle is acquired.  `doc.close()` is a plain
statement after the loop (no `try`/`finally`), so it runs only when the
loop finishes without raising. -/
def extract_text_from_pdf (d : Doc) : Except String String × List Event :=
  match d with
  | .unreadable e => (.error e, [])
  | .pages ps =>
    match pageLoop ps "" with
    | .error e => (.error e, [Event.docOpened])
    | .ok text => (.ok text, [Event.docOpened, Event.docClosed])

/-- Ordered concatenation of a list of strings with no separators
(the spec's "ordered concatenation of the per-page text"). -/
def concatPages (ts : List String) : String :=
  ts.foldl (· ++ ·) ""

/-- One role-tagged chat message. -/
structure Message where
  role : String
  content : String
deriving DecidableEq, Repr

/-- The request sent to `client.chat.completions.create`. -/
structure ChatRequest where
  model : String
  messages : List Message
  temperature : ℚ
deriving DecidableEq, Repr

/-- One completion choice; we keep only `message.content`. -/
structure ChatChoice where
  content : String
deriving DecidableEq, Repr

/-- The model service's response: a list of candidate completions. -/
structure ChatResponse where
  choices : List ChatChoice
deriving DecidableEq, Repr

/-- The language-model capability: a chat request either raises (transport
or service failure) or returns a response. -/
def Llm := ChatRequest → Except String ChatResponse

/-- The part of the f-string prompt before the eight rules (both files,
verbatim, including the f-string's leading newline and indentation). -/
def promptIntro : String :=
  "\n        Analyze this medical lab report and extract ALL test results in the format used in Russian medical consultation notes.\n\n        Format each result as: \"Test name: value unit (reference range) status\"\n        Group by test type and include the test date.\n\n        Example format:\n        \"ОАК от 17.07.2025: лейкоциты 5.5 /л (4-9), эритроциты 4.8 /л (3.9-4.7) выше нормы, гемоглобин 135 г/л (120-140)\"\n\n        "

/-- The eight formatting rules block of the prompt (both files, verbatim). -/
def promptRules : String :=
  "Rules:\n        1. Keep original Russian test names\n        2. Include all numerical values with units\n        3. Include reference ranges in parentheses\n        4. Add status (повышено/понижено/выше нормы/ниже нормы) when indicated\n        5. Group related tests together\n        6. Use commas to separate individual tests\n        7. Use semicolons to separate different test groups\n        8. Include test dates when available"

/-- The part of the prompt between the rules and the substituted text. -/
def promptAfterRules : String :=
  "\n\n        Medical lab report text:\n        "

/-- Everything of the prompt template before the `{pdf_text}` hole
(identical in both files). -/
def promptHead : String :=
  promptIntro ++ promptRules ++ promptAfterRules

/-- What follows `{pdf_text}` in `src/api.py` (line 53-54): a newline and
the closing indentation. -/
def promptTailApi : String := "\n        "

/-- What follows `{pdf_text}` in `src/bloodwork_app.py` (lines 48-51): a
blank line, the closing instruction line, and the closing indentation. -/
def promptTailApp : String :=
  "\n\n        Extract and format the results:\n        "

/-- The user prompt built by `extract_bloodwork_results` in `src/api.py`
(lines 33-54). -/
def prompt_api (pdf_text : String) : String :=
  promptHead ++ pdf_text ++ promptTailApi

/-- The user prompt built by `extract_bloodwork_results` in
`src/bloodwork_app.py` (lines 28-51). -/
def prompt_app (pdf_text : String) : String :=
  promptHead ++ pdf_text ++ promptTailApp

/-- The system message (identical in both files). -/
def systemContent : String :=
  "You are a medical transcription assistant. Extract lab results accurately and format them for Russian medical consultation notes."

/-- The chat request built in `src/api.py` lines 56-66. -/
def reqApi (pdf_text : String) : ChatRequest :=
  { model := "gpt-4o"
    messages := [⟨"system", systemContent⟩, ⟨"user", prompt_api pdf_text⟩]
    temperature := 1/10 }

/-- The chat request built in `src/bloodwork_app.py` lines 54-64. -/
def reqApp (pdf_text : String) : ChatRequest :=
  { model := "gpt-4o"
    messages := [⟨"system", systemContent⟩, ⟨"user", prompt_app pdf_text⟩]
    temperature := 1/10 }

/-- `response.choices[0].message.content.strip()`: indexing an empty
`choices` list raises; otherwise the first choice's content is returned
with surrounding whitespace stripped. -/
def firstChoiceStripped (resp : ChatResponse) : Except String String :=
  match resp.choices with
  | [] => .error "list index out of range"
  | c :: _ => .ok c.content.trim

/-- `BloodworkExtractor.extract_bloodwork_results` in `src/api.py`
(lines 32-68): build the prompt, issue the call, return the stripped first
choice; any exception propagates. -/
def extract_bloodwork_results_api (llm : Llm) (pdf_text : String) :
    Except String String × List Event :=
  (match llm (reqApi pdf_text) with
   | .error e => .error e
   | .ok resp => firstChoiceStripped resp,
   [Event.llmCalled])

/-- `BloodworkExtractor.extract_bloodwork_results` in
`src/bloodwork_app.py` (lines 25-69): same call inside
`try: ... except Exception as e: return f"Error processing results: {str(e)}"`,
so every exception is converted into a normally returned error string. -/
def extract_bloodwork_results_app (llm : Llm) (pdf_text : String) :
    Except String String × List Event :=
  (match
     (match llm (reqApp pdf_text) with
      | .error e => .error e
      | .ok resp => firstChoiceStripped resp : Except String String)
   with
   | .error e => .ok ("Error processing results: " ++ e)
   | .ok s => .ok s,
   [Event.llmCalled])

/-- The record returned by `process_lab_report` in both files:
exactly the three keys `raw_text`, `formatted_results`, `processed_at`. -/
structure ProcessingResult where
  raw_text : String
  formatted_results : String
  processed_at : String
deriving DecidableEq, Repr

/-- `BloodworkExtractor.process_lab_report` in `src/api.py` (lines 70-77):
extract text, then format, then assemble the record with
`datetime.now().strftime("%Y-%m-%d %H:%M:%S")` (the parameter `now`);
exceptions from either stage propagate. -/
def process_lab_report_api (llm : Llm) (d : Doc) (now : String) :
    Except String ProcessingResult × List Event :=
  let (et, ev₁) := extract_text_from_pdf d
  match et with
  | .error e => (.error e, ev₁)
  | .ok pdf_text =>
    let (fr, ev₂) := extract_bloodwork_results_api llm pdf_text
    match fr with
    | .error e => (.error e, ev₁ ++ ev₂)
    | .ok formatted =>
      (.ok ⟨pdf_text, formatted, now⟩, ev₁ ++ ev₂)

/-- `BloodworkExtractor.process_lab_report` in `src/bloodwork_app.py`
(lines 71-84): identical shape, but calls the app's formatter. -/
def process_lab_report_app (llm : Llm) (d : Doc) (now : String) :
    Except String ProcessingResult × List Event :=
  let (et, ev₁) := extract_text_from_pdf d
  match et with
  | .error e => (.error e, ev₁)
  | .ok pdf_text =>
    let (fr, ev₂) := extract_bloodwork_results_app llm pdf_text
    match fr with
    | .error e => (.error e, ev₁ ++ ev₂)
    | .ok formatted =>
      (.ok ⟨pdf_text, formatted, now⟩, ev₁ ++ ev₂)

/-- Outcome of the FastAPI endpoint: the returned record, or an
`HTTPException` with a status code and detail string. -/
inductive HttpOutcome where
  | ok (r : ProcessingResult)
  | httpError (status : Nat) (detail : String)
deriving DecidableEq, Repr

/-- Python truthiness of `os.environ.get("OPENAI_API_KEY")`:
`if not api_key:` fires when the variable is unset (`None`) or empty. -/
def pythonFalsy (k : Option String) : Bool :=
  match k with
  | none => true
  | some s => s = ""

/-- The `process_pdf` endpoint in `src/api.py` (lines 79-98): read the
credential; if falsy, raise HTTP 500 before touching the upload; otherwise
save the upload to a temp file, run the pipeline inside
`try: ... except Exception as e: raise HTTPException(500, str(e))
finally: os.remove(file_path)`. -/
def process_pdf (apiKey : Option String) (llm : Llm) (d : Doc) (now : String) :
    HttpOutcome × List Event :=
  if pythonFalsy apiKey then
    (.httpError 500 "OPENAI_API_KEY not set in environment", [])
  else
    let (res, ev) := process_lab_report_api llm d now
    match res with
    | .ok r => (.ok r, Event.tempSaved :: ev ++ [Event.tempRemoved])
    | .error e => (.httpError 500 e, Event.tempSaved :: ev ++ [Event.tempRemoved])

/-- Observable steps of the Streamlit `main` (`src/bloodwork_app.py`
lines 88-199), at the granularity the claims need. -/
inductive UiEvent where
  | warned (msg : String)
  | fileSaved
  | successShown
  | errorShown (msg : String)
  | fileRemoved
deriving DecidableEq, Repr

/-- The API key `main` ends up with: the environment key when it is
truthy, otherwise whatever the operator typed into the text input. -/
def effectiveKey (envKey : Option String) (entered : String) : String :=
  match envKey with
  | none => entered
  | some k => if k = "" then entered else k

/-- The Streamlit `main` (`src/bloodwork_app.py` lines 88-199), reduced to
its control skeleton: with a falsy API key it only shows a warning (the
uploader is never rendered, so no file is saved and the pipeline never
runs); with a key, an uploaded file is saved to a temp path, and pressing
the button runs `process_lab_report` inside `try`/`except`, removing the
temp file on both outcomes. -/
def main_run (envKey : Option String) (entered : String) (upload : Option Doc)
    (pressed : Bool) (llm : Llm) (now : String) : List UiEvent :=
  let api_key := effectiveKey envKey entered
  if api_key = "" then
    [UiEvent.warned "⚠️ Please provide your OpenAI API key to continue."]
  else
    match upload with
    | none => []
    | some d =>
      if pressed then
        match (process_lab_report_app llm d now).1 with
        | .ok _ =>
          [UiEvent.fileSaved, UiEvent.successShown, UiEvent.fileRemoved]
        | .error e =>
          [UiEvent.fileSaved, UiEvent.errorShown ("❌ Error processing file: " ++ e),
           UiEvent.fileRemoved]
      else [UiEvent.fileSaved]

/-- A stub model service returning one completion `"F"`. -/
def llmStub : Llm := fun _ => Except.ok ⟨[⟨"F"⟩]⟩

lemma pageLoop_map_ok (ts : List String) (acc : String) :
    pageLoop (ts.map Except.ok) acc = Except.ok (ts.foldl (· ++ ·) acc) := by
  induction ts generalizing acc with
  | nil => rfl
  | cons t ts ih => simp [pageLoop, List.foldl, ih]

lemma foldl_append_all_empty (ts : List String) (h : ∀ t ∈ ts, t = "") :
    ∀ acc, ts.foldl (· ++ ·) acc = acc := by
  induction ts with
  | nil => intro acc; rfl
  | cons t ts ih =>
    intro acc
    have ht : t = "" := h t (List.mem_cons_self t ts)
    have hrest : ∀ t ∈ ts, t = "" := fun u hu => h u (List.mem_cons_of_mem t hu)
    rw [List.foldl, ht, String.append_empty, ih hrest]

/-- Claim C4: for a document of pages whose texts are `ts` (each page's
`get_text()` succeeding), `extract_text_from_pdf` returns exactly the
ordered concatenation of `ts` with no separators inserted, and the handle
is opened then closed. -/
theorem extract_text_concatenates_pages (ts : List String) :
    extract_text_from_pdf (Doc.pages (ts.map Except.ok)) =
      (Except.ok (concatPages ts), [Event.docOpened, Event.docClosed]) := by
  simp [extract_text_from_pdf, pageLoop_map_ok, concatPages]

/-- Claim C9: for a well-formed PDF none of whose pages has extractable
text (every page's `get_text()` returns the empty string),
`extract_text_from_pdf` returns the empty string and raises no error. -/
theorem empty_pages_yield_empty_string (ts : List String)
    (h : ∀ t ∈ ts, t = "") :
    extract_text_from_pdf (Doc.pages (ts.map Except.ok)) =
      (Except.ok "", [Event.docOpened, Event.docClosed]) := by
  simp [extract_text_from_pdf, pageLoop_map_ok, foldl_append_all_empty ts h]

/-- Witness for C9: a concrete two-page document with empty page texts. -/
theorem empty_pages_yield_empty_string_witness :
    (∀ t ∈ (["", ""] : List String), t = "") ∧
    extract_text_from_pdf (Doc.pages (List.map Except.ok ["", ""])) =
      (Except.ok "", [Event.docOpened, Event.docClosed]) :=
  ⟨by simp, empty_pages_yield_empty_string ["", ""] (by simp)⟩

/-- Claim C5: for every raw text `R`, the user message of the Formatting
Request (in both files) contains `R` verbatim as a substring; the message
decomposes as fixed constants around `R` (so the instruction text,
including the eight-rules block, is identical across invocations). -/
theorem prompt_contains_raw_text_and_rules (R : String) :
    (∃ p s, prompt_api R = p ++ R ++ s) ∧
    (∃ p s, prompt_app R = p ++ R ++ s) ∧
    prompt_api R = promptHead ++ R ++ promptTailApi ∧
    prompt_app R = promptHead ++ R ++ promptTailApp ∧
    (∃ p s, promptHead = p ++ promptRules ++ s) ∧
    (reqApi R).messages = [⟨"system", systemContent⟩, ⟨"user", prompt_api R⟩] ∧
    (reqApp R).messages = [⟨"system", systemContent⟩, ⟨"user", prompt_app R⟩] :=
  ⟨⟨promptHead, promptTailApi, rfl⟩, ⟨promptHead, promptTailApp, rfl⟩, rfl, rfl,
   ⟨promptIntro, promptAfterRules, rfl⟩, rfl, rfl⟩

set_option maxRecDepth 8192

/-- Counterexample to claim C6 at the concrete raw text `"RAW0"`: in
neither file does the user message end with the raw text — template text
(in `api.py` a newline and indentation, in `bloodwork_app.py` the closing
instruction line) follows it. -/
theorem prompt_has_text_after_raw :
    (¬ ∃ t, prompt_api "RAW0" = t ++ "RAW0") ∧
    (¬ ∃ t, prompt_app "RAW0" = t ++ "RAW0") := by
  constructor
  · rintro ⟨t, ht⟩
    have h := congrArg String.data ht
    rw [String.data_append] at h
    have h2 : (prompt_api "RAW0").data.getLast? = some ' ' := by decide
    rw [h, List.getLast?_append_of_ne_nil _ (by decide)] at h2
    simp at h2
  · rintro ⟨t, ht⟩
    have h := congrArg String.data ht
    rw [String.data_append] at h
    have h2 : (prompt_app "RAW0").data.getLast? = some ' ' := by decide
    rw [h, List.getLast?_append_of_ne_nil _ (by decide)] at h2
    simp at h2

/-- Claim C6 as amended: the user message is the fixed instruction head,
then the raw text, then a fixed trailer; in `api.py` the trailer is only a
newline and closing indentation (whitespace), while in `bloodwork_app.py`
the trailer additionally carries the closing instruction line
"Extract and format the results:". -/
theorem prompt_tail_structure (R : String) :
    prompt_api R = promptHead ++ R ++ "\n        " ∧
    prompt_app R =
      promptHead ++ R ++ "\n\n        Extract and format the results:\n        " ∧
    promptTailApi.data.all Char.isWhitespace = true :=
  ⟨rfl, rfl, by decide⟩

/-- Counterexample to claim C1: with a failing model service, the
`bloodwork_app.py` pipeline still produces a ProcessingResult record — its
`formatted_results` is the substituted string
"Error processing results: ..." and the extracted `raw_text` is surfaced
in the record. -/
theorem llm_failure_app_still_returns_record :
    (process_lab_report_app (fun _ => Except.error "service unavailable")
        (Doc.pages [Except.ok "ОАК 5.5"]) "2025-07-17 10:00:00").1 =
      Except.ok ⟨"ОАК 5.5", "Error processing results: service unavailable",
        "2025-07-17 10:00:00"⟩ := by
  simp [process_lab_report_app, extract_text_from_pdf, pageLoop,
    extract_bloodwork_results_app, firstChoiceStripped]

/-- Claim C1 as amended: when the model call fails, the `api.py`
implementation propagates the error out of both `extract_bloodwork_results`
and `process_lab_report` (no record produced), while the
`bloodwork_app.py` implementation catches it in
`extract_bloodwork_results` and returns the placeholder string
"Error processing results: <error>", so its `process_lab_report` still
produces a record carrying the raw text and that placeholder. -/
theorem llm_failure_propagation_per_surface (e pdfText now : String) :
    (extract_bloodwork_results_api (fun _ => Except.error e) pdfText).1 =
      Except.error e ∧
    (extract_bloodwork_results_app (fun _ => Except.error e) pdfText).1 =
      Except.ok ("Error processing results: " ++ e) ∧
    (process_lab_report_api (fun _ => Except.error e)
        (Doc.pages [Except.ok pdfText]) now).1 = Except.error e ∧
    (process_lab_report_app (fun _ => Except.error e)
        (Doc.pages [Except.ok pdfText]) now).1 =
      Except.ok ⟨pdfText, "Error processing results: " ++ e, now⟩ := by
  refine ⟨rfl, rfl, ?_, ?_⟩ <;>
    simp [process_lab_report_api, process_lab_report_app, extract_text_from_pdf,
      pageLoop, extract_bloodwork_results_api, extract_bloodwork_results_app,
      firstChoiceStripped]

/-- Counterexample to claim C2: on a document whose page extraction
raises, the handle is opened but never closed (`doc.close()` sits after
the loop with no `try`/`finally`). -/
theorem doc_close_skipped_on_page_error :
    Event.docOpened ∈
      (extract_text_from_pdf (Doc.pages [Except.error "page decode failure"])).2 ∧
    Event.docClosed ∉
      (extract_text_from_pdf (Doc.pages [Except.error "page decode failure"])).2 := by
  decide

/-- Claim C2 as amended: the handle is opened and closed when every page
extraction succeeds; when a page's `get_text()` raises, the handle is
opened but the close is skipped; when `fitz.open` itself raises, no
handle is acquired. -/
theorem doc_close_paths (ps : List (Except String String)) (e : String) :
    (∀ t, pageLoop ps "" = Except.ok t →
      (extract_text_from_pdf (Doc.pages ps)).2 =
        [Event.docOpened, Event.docClosed]) ∧
    (∀ err, pageLoop ps "" = Except.error err →
      (extract_text_from_pdf (Doc.pages ps)).2 = [Event.docOpened]) ∧
    (extract_text_from_pdf (Doc.unreadable e)).2 = [] := by
  refine ⟨?_, ?_, rfl⟩
  · intro t ht; simp [extract_text_from_pdf, ht]
  · intro err herr; simp [extract_text_from_pdf, herr]

/-- Witness for the amended C2 at concrete one-page documents. -/
theorem doc_close_paths_witness :
    (extract_text_from_pdf (Doc.pages [Except.ok "T"])).2 =
      [Event.docOpened, Event.docClosed] ∧
    (extract_text_from_pdf (Doc.pages [Except.error "E"])).2 =
      [Event.docOpened] ∧
    (extract_text_from_pdf (Doc.unreadable "B")).2 = [] :=
  ⟨(doc_close_paths [Except.ok "T"] "B").1 ("" ++ "T") rfl,
   (doc_close_paths [Except.error "E"] "B").2.1 "E" rfl,
   (doc_close_paths [Except.ok "T"] "B").2.2⟩

/-- Claim C3: in both files, if text extraction fails with error `e`,
`process_lab_report` fails with exactly that error, the model is never
called, and the event trace stays within the strictly ordered sequence
open document, close document, call model. -/
theorem extraction_failure_short_circuits (llm : Llm) (d : Doc) (now e : String)
    (h : (extract_text_from_pdf d).1 = Except.error e) :
    (process_lab_report_api llm d now).1 = Except.error e ∧
    (process_lab_report_app llm d now).1 = Except.error e ∧
    Event.llmCalled ∉ (process_lab_report_api llm d now).2 ∧
    Event.llmCalled ∉ (process_lab_report_app llm d now).2 ∧
    (process_lab_report_api llm d now).2 <+:
      [Event.docOpened, Event.docClosed, Event.llmCalled] ∧
    (process_lab_report_app llm d now).2 <+:
      [Event.docOpened, Event.docClosed, Event.llmCalled] := by
  cases d with
  | unreadable e' =>
    have he : e' = e := by simpa [extract_text_from_pdf] using h
    subst he
    exact ⟨rfl, rfl, by simp [process_lab_report_api, extract_text_from_pdf],
      by simp [process_lab_report_app, extract_text_from_pdf],
      by simp [process_lab_report_api, extract_text_from_pdf],
      by simp [process_lab_report_app, extract_text_from_pdf]⟩
  | pages ps =>
    cases hp : pageLoop ps "" with
    | ok t => simp [extract_text_from_pdf, hp] at h
    | error err =>
      have he : err = e := by simpa [extract_text_from_pdf, hp] using h
      subst he
      refine ⟨?_, ?_, ?_, ?_, ?_, ?_⟩ <;>
        simp [process_lab_report_api, process_lab_report_app,
          extract_text_from_pdf, hp]

/-- Witness for C3 at a concrete unreadable document. -/
theorem extraction_failure_short_circuits_witness :
    (process_lab_report_api llmStub (Doc.unreadable "cannot open pdf") "t").1 =
      Except.error "cannot open pdf" ∧
    (process_lab_report_app llmStub (Doc.unreadable "cannot open pdf") "t").1 =
      Except.error "cannot open pdf" ∧
    Event.llmCalled ∉
      (process_lab_report_api llmStub (Doc.unreadable "cannot open pdf") "t").2 ∧
    Event.llmCalled ∉
      (process_lab_report_app llmStub (Doc.unreadable "cannot open pdf") "t").2 ∧
    (process_lab_report_api llmStub (Doc.unreadable "cannot open pdf") "t").2 <+:
      [Event.docOpened, Event.docClosed, Event.llmCalled] ∧
    (process_lab_report_app llmStub (Doc.unreadable "cannot open pdf") "t").2 <+:
      [Event.docOpened, Event.docClosed, Event.llmCalled] :=
  extraction_failure_short_circuits llmStub (Doc.unreadable "cannot open pdf")
    "t" "cannot open pdf" rfl

/-- Claim C7: with a falsy credential, the FastAPI endpoint raises the
HTTP 500 configuration error with an empty event trace (no temp-file save,
no document open, no model call), and the Streamlit app only shows the
missing-key warning (no file saved, pipeline never invoked). -/
theorem missing_credential_fails_fast (apiKey : Option String) (llm : Llm)
    (d : Doc) (now : String) (envKey : Option String) (entered : String)
    (upload : Option Doc) (pressed : Bool)
    (hk : pythonFalsy apiKey = true) (hm : effectiveKey envKey entered = "") :
    process_pdf apiKey llm d now =
      (HttpOutcome.httpError 500 "OPENAI_API_KEY not set in environment", []) ∧
    main_run envKey entered upload pressed llm now =
      [UiEvent.warned "⚠️ Please provide your OpenAI API key to continue."] := by
  constructor
  · simp [process_pdf, hk]
  · simp [main_run, hm]

/-- Witness for C7: unset environment variable, nothing typed. -/
theorem missing_credential_fails_fast_witness :
    process_pdf none llmStub (Doc.unreadable "x") "t" =
      (HttpOutcome.httpError 500 "OPENAI_API_KEY not set in environment", []) ∧
    main_run none "" none false llmStub "t" =
      [UiEvent.warned "⚠️ Please provide your OpenAI API key to continue."] :=
  missing_credential_fails_fast none llmStub (Doc.unreadable "x") "t"
    none "" none false rfl rfl

lemma process_api_ok (llm : Llm) (d : Doc) (now : String) (r : ProcessingResult)
    (h : (process_lab_report_api llm d now).1 = Except.ok r) :
    (extract_text_from_pdf d).1 = Except.ok r.raw_text ∧
    (extract_bloodwork_results_api llm r.raw_text).1 =
      Except.ok r.formatted_results ∧
    r.processed_at = now := by
  rcases hext : extract_text_from_pdf d with ⟨et, ev₁⟩
  cases et with
  | error e => simp [process_lab_report_api, hext] at h
  | ok t =>
    rcases hfmt : extract_bloodwork_results_api llm t with ⟨fr, ev₂⟩
    cases fr with
    | error e => simp [process_lab_report_api, hext, hfmt] at h
    | ok f =>
      simp only [process_lab_report_api, hext, hfmt] at h
      obtain rfl : (⟨t, f, now⟩ : ProcessingResult) = r := by
        simpa using h
      exact ⟨by simp [hext], by simp [hfmt], rfl⟩

lemma process_app_ok (llm : Llm) (d : Doc) (now : String) (r : ProcessingResult)
    (h : (process_lab_report_app llm d now).1 = Except.ok r) :
    (extract_text_from_pdf d).1 = Except.ok r.raw_text ∧
    (extract_bloodwork_results_app llm r.raw_text).1 =
      Except.ok r.formatted_results ∧
    r.processed_at = now := by
  rcases hext : extract_text_from_pdf d with ⟨et, ev₁⟩
  cases et with
  | error e => simp [process_lab_report_app, hext] at h
  | ok t =>
    rcases hfmt : extract_bloodwork_results_app llm t with ⟨fr, ev₂⟩
    cases fr with
    | error e => simp [process_lab_report_app, hext, hfmt] at h
    | ok f =>
      simp only [process_lab_report_app, hext, hfmt] at h
      obtain rfl : (⟨t, f, now⟩ : ProcessingResult) = r := by
        simpa using h
      exact ⟨by simp [hext], by simp [hfmt], rfl⟩

/-- Claim C8: every record either pipeline produces has its
`formatted_results` equal to the formatter applied to that same record's
`raw_text`, its `raw_text` equal to the text extracted from the processed
document (no cross-document mixing), its `processed_at` the stamped time;
and a ProcessingResult consists of exactly those three fields. -/
theorem result_record_invariant (llm : Llm) (d : Doc) (now : String) :
    (∀ r, (process_lab_report_api llm d now).1 = Except.ok r →
      (extract_text_from_pdf d).1 = Except.ok r.raw_text ∧
      (extract_bloodwork_results_api llm r.raw_text).1 =
        Except.ok r.formatted_results ∧
      r.processed_at = now) ∧
    (∀ r, (process_lab_report_app llm d now).1 = Except.ok r →
      (extract_text_from_pdf d).1 = Except.ok r.raw_text ∧
      (extract_bloodwork_results_app llm r.raw_text).1 =
        Except.ok r.formatted_results ∧
      r.processed_at = now) ∧
    (∀ r : ProcessingResult,
      r = ⟨r.raw_text, r.formatted_results, r.processed_at⟩) :=
  ⟨process_api_ok llm d now, process_app_ok llm d now, fun _ => rfl⟩

/-- Witness for C8 at a concrete one-page document and stub model. -/
theorem result_record_invariant_witness :
    (extract_text_from_pdf (Doc.pages [Except.ok "T"])).1 = Except.ok "T" ∧
    (extract_bloodwork_results_api llmStub "T").1 = Except.ok "F".trim ∧
    ("ts" : String) = "ts" :=
  (result_record_invariant llmStub (Doc.pages [Except.ok "T"]) "ts").1
    ⟨"T", "F".trim, "ts"⟩ rfl

/-- Counterexample to claim C10 at the concrete raw text `"X"` and a
failing model service: the two implementations build different requests
(the user prompts differ) and react differently to the same failure — the
`api.py` version propagates the error, the `bloodwork_app.py` version
returns a normal string. -/
theorem surfaces_differ_on_prompt_and_failure :
    reqApi "X" ≠ reqApp "X" ∧
    (extract_bloodwork_results_api (fun _ => Except.error "network down") "X").1 =
      Except.error "network down" ∧
    (extract_bloodwork_results_app (fun _ => Except.error "network down") "X").1 =
      Except.ok "Error processing results: network down" ∧
    (extract_bloodwork_results_api (fun _ => Except.error "network down") "X").1 ≠
      (extract_bloodwork_results_app (fun _ => Except.error "network down") "X").1 := by
  refine ⟨by decide, rfl, rfl, by simp [extract_bloodwork_results_api,
    extract_bloodwork_results_app, firstChoiceStripped]⟩

/-- Claim C10 as amended: the two implementations agree on model
identifier, temperature, system message, and the instruction head of the
user prompt; their user prompts differ only in the fixed tail after the
raw text; on a successful single-choice response both return the stripped
content; on a failed call the `api.py` version propagates the error while
the `bloodwork_app.py` version returns
"Error processing results: <error>". -/
theorem surfaces_partial_equivalence (R e : String) (c : ChatChoice) :
    (reqApi R).model = (reqApp R).model ∧
    (reqApi R).temperature = (reqApp R).temperature ∧
    (reqApi R).messages.head? = (reqApp R).messages.head? ∧
    prompt_api R = promptHead ++ R ++ promptTailApi ∧
    prompt_app R = promptHead ++ R ++ promptTailApp ∧
    promptTailApi ≠ promptTailApp ∧
    (∀ llm : Llm, llm (reqApi R) = Except.ok ⟨[c]⟩ →
      (extract_bloodwork_results_api llm R).1 = Except.ok c.content.trim) ∧
    (∀ llm : Llm, llm (reqApp R) = Except.ok ⟨[c]⟩ →
      (extract_bloodwork_results_app llm R).1 = Except.ok c.content.trim) ∧
    (extract_bloodwork_results_api (fun _ => Except.error e) R).1 =
      Except.error e ∧
    (extract_bloodwork_results_app (fun _ => Except.error e) R).1 =
      Except.ok ("Error processing results: " ++ e) := by
  refine ⟨rfl, rfl, rfl, rfl, rfl, by decide, ?_, ?_, rfl, rfl⟩
  · intro llm hllm
    simp [extract_bloodwork_results_api, hllm, firstChoiceStripped]
  · intro llm hllm
    simp [extract_bloodwork_results_app, hllm, firstChoiceStripped]

/-- Witness for the amended C10 at the stub model service. -/
theorem surfaces_partial_equivalence_witness :
    (extract_bloodwork_results_api llmStub "X").1 = Except.ok "F".trim ∧
    (extract_bloodwork_results_app llmStub "X").1 = Except.ok "F".trim :=
  ⟨(surfaces_partial_equivalence "X" "net" ⟨"F"⟩).2.2.2.2.2.2.1 llmStub rfl,
   (surfaces_partial_equivalence "X" "net" ⟨"F"⟩).2.2.2.2.2.2.2.1 llmStub rfl⟩

end Bloodwork
